import Mathlib

/-!
Verification of `env/composite_env.cc`: the adapter layer that presents the
modern FileSystem API (per-call IOOptions and IODebugContext, batched
MultiRead) through the legacy Env file API.

Shallow embedding. Modern file handles are behavior records: each virtual
method of the modern handle becomes a function field, with out-parameters
turned into returned values. The five wrapper classes and the CompositeEnv
creation methods are transcribed from the source one method at a time.
Machine integers (size_t, uint64_t) become Nat: the adapter performs no
arithmetic on them, it only forwards them. A `char*` buffer is modelled by a
Nat identifying the buffer; a C++ out-parameter slot of type `T*` becomes a
returned `T` (and a possibly-null `unique_ptr<T>` becomes `Option T`).
-/

/-! ## Value types shared by the legacy and modern APIs.
These types are declared in headers that are referenced by, but not part of,
the given source; they are modelled from the spec where the spec constrains
them. -/

/-- A status value: an error code (0 = ok), subcode and message. `IOStatus`
is a subclass of `Status` carrying the same data, so both are modelled by
this one type. -/
structure Status where
  code : Nat
  subcode : Nat
  msg : String
deriving Repr, DecidableEq

/-- The success status, `Status::OK()`. -/
def Status.OK : Status := ⟨0, 0, ""⟩

/-- `Status::ok()`: true exactly when the code is the ok code. -/
def Status.ok (s : Status) : Bool := s.code == 0

/-- The modern API's status type; a subclass of `Status` with the same data. -/
abbrev IOStatus := Status

/-- A byte slice; default-constructed empty. -/
structure Slice where
  data : String
deriving Repr, DecidableEq

/-- The default-constructed (empty) slice. -/
def Slice.empty : Slice := ⟨""⟩

/-- The verification payload of the checksum-carrying append variants: a
checksum slice (the adapter only forwards it, never inspects it). -/
structure DataVerificationInfo where
  checksum : Slice
deriving Repr, DecidableEq

/-- Modelled from the spec: the modern API's per-call I/O options value.
The spec states the default-constructed value carries no deadline and no
rate-limiter priority (`file_system.h` is not among the given sources). -/
structure IOOptions where
  timeout : Nat := 0
  prio : Nat := 0
  rateLimiterPriority : Nat := 0
deriving Repr, DecidableEq

/-- Modelled from the spec: the modern API's per-call debug context, an
out-parameter the backend may fill; default-constructed empty. -/
structure IODebugContext where
  requestId : String := ""
  msg : String := ""
deriving Repr, DecidableEq

/-- Modelled from the spec: the legacy open options (`EnvOptions`),
represented by its option fields relevant to file creation. -/
structure EnvOptions where
  useMmapReads : Bool := false
  useMmapWrites : Bool := true
  useDirectReads : Bool := false
  useDirectWrites : Bool := false
  bytesPerSync : Nat := 0
deriving Repr, DecidableEq

/-- Modelled from the spec: the modern file-creation options (`FileOptions`),
constructible from the legacy `EnvOptions` (the conversion keeps the legacy
fields and default-constructs the modern-only fields). -/
structure FileOptions where
  envOptions : EnvOptions
  ioOptions : IOOptions := {}
  temperature : Nat := 0
deriving Repr, DecidableEq

/-- The `FileOptions(const EnvOptions&)` converting constructor used at every
file-creation call site of the source. -/
def FileOptions.ofEnvOptions (o : EnvOptions) : FileOptions :=
  { envOptions := o }

/-- Modelled from the spec: the modern directory-fsync options; the
default-constructed value requests the default behavior, no special flags
(reason 0 = default, no renamed-file annotation-free name). -/
structure DirFsyncOptions where
  reason : Nat := 0
  renamedNewName : String := ""
deriving Repr, DecidableEq

/-! ## Batched read request records. -/

/-- The legacy `ReadRequest`: offset, length and destination buffer filled in
by the caller; result slice and status filled in by `MultiRead`. -/
structure ReadRequest where
  offset : Nat
  len : Nat
  scratch : Nat
  result : Slice := Slice.empty
  status : Status := Status.OK
deriving Repr, DecidableEq

/-- The modern `FSReadRequest`, same shape; defaults are the
default-constructed element produced by `std::vector::resize`. -/
structure FSReadRequest where
  offset : Nat := 0
  len : Nat := 0
  scratch : Nat := 0
  result : Slice := Slice.empty
  status : IOStatus := Status.OK
deriving Repr, DecidableEq

/-! ## Modern handle types (behavior records).
Each is the method surface the source invokes on the wrapped modern handle.
A method taking `const IOOptions&` and `IODebugContext*` keeps both as
arguments so that the theorems can speak about the values the adapter
passes. Methods that return `void` and only mutate the handle are modelled
by state-passing where a claim needs them (write-lifetime hint,
preallocation size); `PrepareWrite` returns the debug context it may fill,
which is the delegated call's only adapter-visible observable. -/

/-- Modern sequential-read file handle (`FSSequentialFile`). -/
structure FSSequentialFile where
  Read : Nat → IOOptions → Nat → IODebugContext → IOStatus × Slice
  Skip : Nat → IOStatus
  use_direct_io : Bool
  GetRequiredBufferAlignment : Nat
  InvalidateCache : Nat → Nat → IOStatus
  PositionedRead : Nat → Nat → IOOptions → Nat → IODebugContext → IOStatus × Slice

/-- Modern random-access-read file handle (`FSRandomAccessFile`).
`MultiRead` receives the request array (its length is the C++ `num_reqs`)
and returns the array as left after the call together with the call-level
status; a C++ backend mutates the array elements in place and cannot change
its length. -/
structure FSRandomAccessFile where
  Read : Nat → Nat → IOOptions → Nat → IODebugContext → IOStatus × Slice
  MultiRead : List FSReadRequest → IOOptions → IODebugContext → List FSReadRequest × IOStatus
  Prefetch : Nat → Nat → IOOptions → IODebugContext → IOStatus
  GetUniqueId : Nat → Nat → Nat
  Hint : Nat → Unit
  use_direct_io : Bool
  GetRequiredBufferAlignment : Nat
  InvalidateCache : Nat → Nat → IOStatus

/-- Modern writable file handle (`FSWritableFile`). The two verified append
variants are the C++ overloads taking a `DataVerificationInfo`. The
write-lifetime hint and preallocation block size are handle state: the
base-class setters store them and the getters read them back (modelled from
the spec; the header with the base-class bodies is not among the sources),
so they appear as data fields updated by the functions below. -/
structure FSWritableFile where
  Append : Slice → IOOptions → IODebugContext → IOStatus
  AppendWithVerify : Slice → IOOptions → DataVerificationInfo → IODebugContext → IOStatus
  PositionedAppend : Slice → Nat → IOOptions → IODebugContext → IOStatus
  PositionedAppendWithVerify : Slice → Nat → IOOptions → DataVerificationInfo → IODebugContext → IOStatus
  Truncate : Nat → IOOptions → IODebugContext → IOStatus
  Close : IOOptions → IODebugContext → IOStatus
  Flush : IOOptions → IODebugContext → IOStatus
  Sync : IOOptions → IODebugContext → IOStatus
  Fsync : IOOptions → IODebugContext → IOStatus
  IsSyncThreadSafe : Bool
  use_direct_io : Bool
  GetRequiredBufferAlignment : Nat
  writeHint : Nat
  GetFileSize : IOOptions → IODebugContext → Nat
  preallocationBlockSize : Nat
  lastPreallocatedBlock : Nat
  GetUniqueId : Nat → Nat → Nat
  InvalidateCache : Nat → Nat → IOStatus
  RangeSync : Nat → Nat → IOOptions → IODebugContext → IOStatus
  PrepareWrite : Nat → Nat → IOOptions → IODebugContext → IODebugContext
  Allocate : Nat → Nat → IOOptions → IODebugContext → IOStatus

/-- Modelled from the spec: the modern handle's write-lifetime-hint setter
stores the hint on the handle. -/
def FSWritableFile.SetWriteLifeTimeHint (f : FSWritableFile) (hint : Nat) :
    FSWritableFile :=
  { f with writeHint := hint }

/-- Modelled from the spec: the modern handle's write-lifetime-hint getter
reads the stored hint back. -/
def FSWritableFile.GetWriteLifeTimeHint (f : FSWritableFile) : Nat :=
  f.writeHint

/-- Modelled from the spec: the modern handle's preallocation-size setter
stores the block size on the handle. -/
def FSWritableFile.SetPreallocationBlockSize (f : FSWritableFile) (size : Nat) :
    FSWritableFile :=
  { f with preallocationBlockSize := size }

/-- Modelled from the spec: the modern handle's preallocation-status getter
returns the stored block size and last allocated block. -/
def FSWritableFile.GetPreallocationStatus (f : FSWritableFile) : Nat × Nat :=
  (f.preallocationBlockSize, f.lastPreallocatedBlock)

/-- Modern random read/write file handle (`FSRandomRWFile`). -/
structure FSRandomRWFile where
  use_direct_io : Bool
  GetRequiredBufferAlignment : Nat
  Write : Nat → Slice → IOOptions → IODebugContext → IOStatus
  Read : Nat → Nat → IOOptions → Nat → IODebugContext → IOStatus × Slice
  Flush : IOOptions → IODebugContext → IOStatus
  Sync : IOOptions → IODebugContext → IOStatus
  Fsync : IOOptions → IODebugContext → IOStatus
  Close : IOOptions → IODebugContext → IOStatus

/-- Modern directory handle (`FSDirectory`); the source only invokes
`FsyncWithDirOptions` and `GetUniqueId` on it. -/
structure FSDirectory where
  FsyncWithDirOptions : IOOptions → IODebugContext → DirFsyncOptions → IOStatus
  GetUniqueId : Nat → Nat → Nat

/-- The modern storage backend (`FileSystem`): the creation operations the
composite environment invokes. Each returns the status and the
out-parameter handle slot (`none` models a null `unique_ptr`), and receives
the debug-context out-parameter's initial value. -/
structure FileSystem where
  NewSequentialFile : String → FileOptions → IODebugContext → Status × Option FSSequentialFile
  NewRandomAccessFile : String → FileOptions → IODebugContext → Status × Option FSRandomAccessFile
  NewWritableFile : String → FileOptions → IODebugContext → Status × Option FSWritableFile
  ReopenWritableFile : String → FileOptions → IODebugContext → Status × Option FSWritableFile
  ReuseWritableFile : String → String → FileOptions → IODebugContext → Status × Option FSWritableFile
  NewRandomRWFile : String → FileOptions → IODebugContext → Status × Option FSRandomRWFile
  NewDirectory : String → IOOptions → IODebugContext → Status × Option FSDirectory

/-! ## The five leaf wrappers (source lines 20-283). -/

/-- `CompositeSequentialFileWrapper`: owns one modern sequential handle. -/
structure CompositeSequentialFileWrapper where
  target : FSSequentialFile

/-- Source lines 26-30: fresh default options and debug context, delegate. -/
def CompositeSequentialFileWrapper.Read (w : CompositeSequentialFileWrapper)
    (n : Nat) (scratch : Nat) : Status × Slice :=
  let io_opts : IOOptions := {}
  let dbg : IODebugContext := {}
  w.target.Read n io_opts scratch dbg

/-- Source line 31: plain pass-through. -/
def CompositeSequentialFileWrapper.Skip (w : CompositeSequentialFileWrapper)
    (n : Nat) : Status :=
  w.target.Skip n

/-- Source line 32: plain pass-through. -/
def CompositeSequentialFileWrapper.use_direct_io
    (w : CompositeSequentialFileWrapper) : Bool :=
  w.target.use_direct_io

/-- Source lines 33-35: plain pass-through. -/
def CompositeSequentialFileWrapper.GetRequiredBufferAlignment
    (w : CompositeSequentialFileWrapper) : Nat :=
  w.target.GetRequiredBufferAlignment

/-- Source lines 36-38: plain pass-through. -/
def CompositeSequentialFileWrapper.InvalidateCache
    (w : CompositeSequentialFileWrapper) (offset length : Nat) : Status :=
  w.target.InvalidateCache offset length

/-- Source lines 39-44: fresh default options and debug context, delegate. -/
def CompositeSequentialFileWrapper.PositionedRead
    (w : CompositeSequentialFileWrapper) (offset n : Nat) (scratch : Nat) :
    Status × Slice :=
  let io_opts : IOOptions := {}
  let dbg : IODebugContext := {}
  w.target.PositionedRead offset n io_opts scratch dbg

/-- `CompositeRandomAccessFileWrapper`: owns one modern random-access handle. -/
structure CompositeRandomAccessFileWrapper where
  target : FSRandomAccessFile

/-- Source lines 56-61. -/
def CompositeRandomAccessFileWrapper.Read
    (w : CompositeRandomAccessFileWrapper) (offset n : Nat) (scratch : Nat) :
    Status × Slice :=
  let io_opts : IOOptions := {}
  let dbg : IODebugContext := {}
  w.target.Read offset n io_opts scratch dbg

/-- Source lines 69-74, the body of the first loop of `MultiRead`: the
modern-shaped element built from legacy request `r` copies offset, length
and destination buffer, initializes the status to success, and leaves the
result slice as the default-constructed one `resize` produced. -/
def toFsReq (r : ReadRequest) : FSReadRequest :=
  { offset := r.offset, len := r.len, scratch := r.scratch,
    result := Slice.empty, status := Status.OK }

/-- The whole first loop of `MultiRead` (source lines 68-74): the parallel
internal array `fs_reqs`, index-aligned with the input by construction. -/
def buildFsReqs (reqs : List ReadRequest) : List FSReadRequest :=
  reqs.map toFsReq

/-- The second loop of `MultiRead` (source lines 76-79): copy each internal
element's result slice and status back into the corresponding caller
element, position by position. (In C++ both arrays always have length
`num_reqs`; the degenerate unequal-length cases below are unreachable.) -/
def copyBackReqs : List ReadRequest → List FSReadRequest → List ReadRequest
  | [], _ => []
  | r :: rs, [] => r :: rs
  | r :: rs, f :: fs =>
      { r with result := f.result, status := f.status } :: copyBackReqs rs fs

/-- Source lines 62-81: build the parallel modern request array, issue the
one modern batched read with one shared fresh options/debug-context pair,
then copy results and statuses back; return the call-level status. -/
def CompositeRandomAccessFileWrapper.MultiRead
    (w : CompositeRandomAccessFileWrapper) (reqs : List ReadRequest) :
    List ReadRequest × Status :=
  let io_opts : IOOptions := {}
  let dbg : IODebugContext := {}
  let fs_reqs := buildFsReqs reqs
  let call := w.target.MultiRead fs_reqs io_opts dbg
  (copyBackReqs reqs call.1, call.2)

/-- Source lines 82-86. -/
def CompositeRandomAccessFileWrapper.Prefetch
    (w : CompositeRandomAccessFileWrapper) (offset n : Nat) : Status :=
  let io_opts : IOOptions := {}
  let dbg : IODebugContext := {}
  w.target.Prefetch offset n io_opts dbg

/-- Source lines 87-89: plain pass-through. -/
def CompositeRandomAccessFileWrapper.GetUniqueId
    (w : CompositeRandomAccessFileWrapper) (id max_size : Nat) : Nat :=
  w.target.GetUniqueId id max_size

/-- Source lines 90-92: the legacy access-pattern enum is reinterpreted as
the modern one; both share the same ordinal space, so the C-style cast is
the identity on ordinals. -/
def accessPatternCast (pattern : Nat) : Nat := pattern

/-- Source lines 90-92. -/
def CompositeRandomAccessFileWrapper.Hint
    (w : CompositeRandomAccessFileWrapper) (pattern : Nat) : Unit :=
  w.target.Hint (accessPatternCast pattern)

/-- Source line 93: plain pass-through. -/
def CompositeRandomAccessFileWrapper.use_direct_io
    (w : CompositeRandomAccessFileWrapper) : Bool :=
  w.target.use_direct_io

/-- Source lines 94-96: plain pass-through. -/
def CompositeRandomAccessFileWrapper.GetRequiredBufferAlignment
    (w : CompositeRandomAccessFileWrapper) : Nat :=
  w.target.GetRequiredBufferAlignment

/-- Source lines 97-99: plain pass-through. -/
def CompositeRandomAccessFileWrapper.InvalidateCache
    (w : CompositeRandomAccessFileWrapper) (offset length : Nat) : Status :=
  w.target.InvalidateCache offset length

/-- `CompositeWritableFileWrapper`: owns one modern writable handle. -/
structure CompositeWritableFileWrapper where
  target : FSWritableFile

/-- Source lines 110-114: the plain append overload. -/
def CompositeWritableFileWrapper.Append (w : CompositeWritableFileWrapper)
    (data : Slice) : Status :=
  let io_opts : IOOptions := {}
  let dbg : IODebugContext := {}
  w.target.Append data io_opts dbg

/-- Source lines 115-120: the C++ overload `Append(data, verification_info)`;
it delegates to the modern verified append with the payload intact. -/
def CompositeWritableFileWrapper.AppendWithVerify
    (w : CompositeWritableFileWrapper) (data : Slice)
    (verification_info : DataVerificationInfo) : Status :=
  let io_opts : IOOptions := {}
  let dbg : IODebugContext := {}
  w.target.AppendWithVerify data io_opts verification_info dbg

/-- Source lines 121-125: the plain positioned-append overload. -/
def CompositeWritableFileWrapper.PositionedAppend
    (w : CompositeWritableFileWrapper) (data : Slice) (offset : Nat) : Status :=
  let io_opts : IOOptions := {}
  let dbg : IODebugContext := {}
  w.target.PositionedAppend data offset io_opts dbg

/-- Source lines 126-133: the C++ overload
`PositionedAppend(data, offset, verification_info)`. -/
def CompositeWritableFileWrapper.PositionedAppendWithVerify
    (w : CompositeWritableFileWrapper) (data : Slice) (offset : Nat)
    (verification_info : DataVerificationInfo) : Status :=
  let io_opts : IOOptions := {}
  let dbg : IODebugContext := {}
  w.target.PositionedAppendWithVerify data offset io_opts verification_info dbg

/-- Source lines 134-138. -/
def CompositeWritableFileWrapper.Truncate (w : CompositeWritableFileWrapper)
    (size : Nat) : Status :=
  let io_opts : IOOptions := {}
  let dbg : IODebugContext := {}
  w.target.Truncate size io_opts dbg

/-- Source lines 139-143. -/
def CompositeWritableFileWrapper.Close (w : CompositeWritableFileWrapper) :
    Status :=
  let io_opts : IOOptions := {}
  let dbg : IODebugContext := {}
  w.target.Close io_opts dbg

/-- Source lines 144-148. -/
def CompositeWritableFileWrapper.Flush (w : CompositeWritableFileWrapper) :
    Status :=
  let io_opts : IOOptions := {}
  let dbg : IODebugContext := {}
  w.target.Flush io_opts dbg

/-- Source lines 149-153. -/
def CompositeWritableFileWrapper.Sync (w : CompositeWritableFileWrapper) :
    Status :=
  let io_opts : IOOptions := {}
  let dbg : IODebugContext := {}
  w.target.Sync io_opts dbg

/-- Source lines 154-158. -/
def CompositeWritableFileWrapper.Fsync (w : CompositeWritableFileWrapper) :
    Status :=
  let io_opts : IOOptions := {}
  let dbg : IODebugContext := {}
  w.target.Fsync io_opts dbg

/-- Source line 159: plain pass-through. -/
def CompositeWritableFileWrapper.IsSyncThreadSafe
    (w : CompositeWritableFileWrapper) : Bool :=
  w.target.IsSyncThreadSafe

/-- Source line 161: plain pass-through. -/
def CompositeWritableFileWrapper.use_direct_io
    (w : CompositeWritableFileWrapper) : Bool :=
  w.target.use_direct_io

/-- Source lines 163-165: plain pass-through. -/
def CompositeWritableFileWrapper.GetRequiredBufferAlignment
    (w : CompositeWritableFileWrapper) : Nat :=
  w.target.GetRequiredBufferAlignment

/-- Source lines 167-169: plain pass-through to the handle's setter
(state-passing rendering of the mutation). -/
def CompositeWritableFileWrapper.SetWriteLifeTimeHint
    (w : CompositeWritableFileWrapper) (hint : Nat) :
    CompositeWritableFileWrapper :=
  { w with target := w.target.SetWriteLifeTimeHint hint }

/-- Source lines 171-173: plain pass-through. -/
def CompositeWritableFileWrapper.GetWriteLifeTimeHint
    (w : CompositeWritableFileWrapper) : Nat :=
  w.target.GetWriteLifeTimeHint

/-- Source lines 175-179. -/
def CompositeWritableFileWrapper.GetFileSize
    (w : CompositeWritableFileWrapper) : Nat :=
  let io_opts : IOOptions := {}
  let dbg : IODebugContext := {}
  w.target.GetFileSize io_opts dbg

/-- Source lines 181-183: plain pass-through (state-passing). -/
def CompositeWritableFileWrapper.SetPreallocationBlockSize
    (w : CompositeWritableFileWrapper) (size : Nat) :
    CompositeWritableFileWrapper :=
  { w with target := w.target.SetPreallocationBlockSize size }

/-- Source lines 185-188: plain pass-through of the two out-parameters. -/
def CompositeWritableFileWrapper.GetPreallocationStatus
    (w : CompositeWritableFileWrapper) : Nat × Nat :=
  w.target.GetPreallocationStatus

/-- Source lines 190-192: plain pass-through. -/
def CompositeWritableFileWrapper.GetUniqueId
    (w : CompositeWritableFileWrapper) (id max_size : Nat) : Nat :=
  w.target.GetUniqueId id max_size

/-- Source lines 194-196: plain pass-through. -/
def CompositeWritableFileWrapper.InvalidateCache
    (w : CompositeWritableFileWrapper) (offset length : Nat) : Status :=
  w.target.InvalidateCache offset length

/-- Source lines 198-202. -/
def CompositeWritableFileWrapper.RangeSync (w : CompositeWritableFileWrapper)
    (offset nbytes : Nat) : Status :=
  let io_opts : IOOptions := {}
  let dbg : IODebugContext := {}
  w.target.RangeSync offset nbytes io_opts dbg

/-- Source lines 204-208: `PrepareWrite` returns void in C++; the delegated
modern call's only adapter-visible observable is the debug context it may
fill, returned here as the observation of the call (the C++ wrapper then
discards its stack-local copy). -/
def CompositeWritableFileWrapper.PrepareWrite
    (w : CompositeWritableFileWrapper) (offset len : Nat) : IODebugContext :=
  let io_opts : IOOptions := {}
  let dbg : IODebugContext := {}
  w.target.PrepareWrite offset len io_opts dbg

/-- Source lines 210-214. -/
def CompositeWritableFileWrapper.Allocate (w : CompositeWritableFileWrapper)
    (offset len : Nat) : Status :=
  let io_opts : IOOptions := {}
  let dbg : IODebugContext := {}
  w.target.Allocate offset len io_opts dbg

/-- `CompositeRandomRWFileWrapper`: owns one modern random read/write handle. -/
structure CompositeRandomRWFileWrapper where
  target : FSRandomRWFile

/-- Source line 227: plain pass-through. -/
def CompositeRandomRWFileWrapper.use_direct_io
    (w : CompositeRandomRWFileWrapper) : Bool :=
  w.target.use_direct_io

/-- Source lines 228-230: plain pass-through. -/
def CompositeRandomRWFileWrapper.GetRequiredBufferAlignment
    (w : CompositeRandomRWFileWrapper) : Nat :=
  w.target.GetRequiredBufferAlignment

/-- Source lines 231-235. -/
def CompositeRandomRWFileWrapper.Write (w : CompositeRandomRWFileWrapper)
    (offset : Nat) (data : Slice) : Status :=
  let io_opts : IOOptions := {}
  let dbg : IODebugContext := {}
  w.target.Write offset data io_opts dbg

/-- Source lines 236-241. -/
def CompositeRandomRWFileWrapper.Read (w : CompositeRandomRWFileWrapper)
    (offset n : Nat) (scratch : Nat) : Status × Slice :=
  let io_opts : IOOptions := {}
  let dbg : IODebugContext := {}
  w.target.Read offset n io_opts scratch dbg

/-- Source lines 242-246. -/
def CompositeRandomRWFileWrapper.Flush (w : CompositeRandomRWFileWrapper) :
    Status :=
  let io_opts : IOOptions := {}
  let dbg : IODebugContext := {}
  w.target.Flush io_opts dbg

/-- Source lines 247-251. -/
def CompositeRandomRWFileWrapper.Sync (w : CompositeRandomRWFileWrapper) :
    Status :=
  let io_opts : IOOptions := {}
  let dbg : IODebugContext := {}
  w.target.Sync io_opts dbg

/-- Source lines 252-256. -/
def CompositeRandomRWFileWrapper.Fsync (w : CompositeRandomRWFileWrapper) :
    Status :=
  let io_opts : IOOptions := {}
  let dbg : IODebugContext := {}
  w.target.Fsync io_opts dbg

/-- Source lines 257-261. -/
def CompositeRandomRWFileWrapper.Close (w : CompositeRandomRWFileWrapper) :
    Status :=
  let io_opts : IOOptions := {}
  let dbg : IODebugContext := {}
  w.target.Close io_opts dbg

/-- `CompositeDirectoryWrapper`: owns one modern directory handle. -/
structure CompositeDirectoryWrapper where
  target : FSDirectory

/-- Source lines 272-276: the legacy `Fsync` always requests the modern
call's default directory-fsync behavior, `DirFsyncOptions()`. -/
def CompositeDirectoryWrapper.Fsync (w : CompositeDirectoryWrapper) : Status :=
  let io_opts : IOOptions := {}
  let dbg : IODebugContext := {}
  w.target.FsyncWithDirOptions io_opts dbg {}

/-- Source lines 277-279: plain pass-through. -/
def CompositeDirectoryWrapper.GetUniqueId (w : CompositeDirectoryWrapper)
    (id max_size : Nat) : Nat :=
  w.target.GetUniqueId id max_size

/-! ## The composite environment (source lines 286-381). -/

/-- `CompositeEnv`: holds the reference to the modern storage backend. -/
structure CompositeEnv where
  fileSystem : FileSystem

/-- Source lines 286-298: fresh debug context, convert the legacy options
with `FileOptions(options)`, invoke the modern creation; on success wrap the
returned handle, otherwise leave the output slot untouched (empty) and
return the backend's status as is. (If the backend broke its contract by
reporting ok without setting the handle, the C++ would wrap a null pointer;
the model returns an empty slot in that unreachable corner.) -/
def CompositeEnv.NewSequentialFile (env : CompositeEnv) (f : String)
    (options : EnvOptions) : Status × Option CompositeSequentialFileWrapper :=
  let dbg : IODebugContext := {}
  let call := env.fileSystem.NewSequentialFile f (FileOptions.ofEnvOptions options) dbg
  if call.1.ok then (call.1, Option.map CompositeSequentialFileWrapper.mk call.2)
  else (call.1, none)

/-- Source lines 300-312. -/
def CompositeEnv.NewRandomAccessFile (env : CompositeEnv) (f : String)
    (options : EnvOptions) : Status × Option CompositeRandomAccessFileWrapper :=
  let dbg : IODebugContext := {}
  let call := env.fileSystem.NewRandomAccessFile f (FileOptions.ofEnvOptions options) dbg
  if call.1.ok then (call.1, Option.map CompositeRandomAccessFileWrapper.mk call.2)
  else (call.1, none)

/-- Source lines 314-325. -/
def CompositeEnv.NewWritableFile (env : CompositeEnv) (f : String)
    (options : EnvOptions) : Status × Option CompositeWritableFileWrapper :=
  let dbg : IODebugContext := {}
  let call := env.fileSystem.NewWritableFile f (FileOptions.ofEnvOptions options) dbg
  if call.1.ok then (call.1, Option.map CompositeWritableFileWrapper.mk call.2)
  else (call.1, none)

/-- Source lines 327-339. -/
def CompositeEnv.ReopenWritableFile (env : CompositeEnv) (fname : String)
    (options : EnvOptions) : Status × Option CompositeWritableFileWrapper :=
  let dbg : IODebugContext := {}
  let call := env.fileSystem.ReopenWritableFile fname (FileOptions.ofEnvOptions options) dbg
  if call.1.ok then (call.1, Option.map CompositeWritableFileWrapper.mk call.2)
  else (call.1, none)

/-- Source lines 341-354. -/
def CompositeEnv.ReuseWritableFile (env : CompositeEnv)
    (fname old_fname : String) (options : EnvOptions) :
    Status × Option CompositeWritableFileWrapper :=
  let dbg : IODebugContext := {}
  let call := env.fileSystem.ReuseWritableFile fname old_fname
    (FileOptions.ofEnvOptions options) dbg
  if call.1.ok then (call.1, Option.map CompositeWritableFileWrapper.mk call.2)
  else (call.1, none)

/-- Source lines 356-368. -/
def CompositeEnv.NewRandomRWFile (env : CompositeEnv) (fname : String)
    (options : EnvOptions) : Status × Option CompositeRandomRWFileWrapper :=
  let dbg : IODebugContext := {}
  let call := env.fileSystem.NewRandomRWFile fname (FileOptions.ofEnvOptions options) dbg
  if call.1.ok then (call.1, Option.map CompositeRandomRWFileWrapper.mk call.2)
  else (call.1, none)

/-- Source lines 370-381: the legacy directory creation carries no open
options; the source default-constructs an `IOOptions` value and passes it
(the modern `NewDirectory` is shaped with `IOOptions`, not `FileOptions`). -/
def CompositeEnv.NewDirectory (env : CompositeEnv) (name : String) :
    Status × Option CompositeDirectoryWrapper :=
  let io_opts : IOOptions := {}
  let dbg : IODebugContext := {}
  let call := env.fileSystem.NewDirectory name io_opts dbg
  if call.1.ok then (call.1, Option.map CompositeDirectoryWrapper.mk call.2)
  else (call.1, none)

/-! ## Slot-level model of the wrapper constructors.
Each constructor takes the caller's `unique_ptr` slot by reference and
member-initializes `target_(std::move(target))`: the wrapper's slot takes
the caller slot's contents and the caller's slot is left empty. A
`unique_ptr` is modelled as an owning slot that is either empty or holds
the handle. -/

/-- An exclusive owning slot: a `std::unique_ptr` (empty = null). -/
structure UniquePtr (α : Type) where
  contents : Option α

/-- Source lines 22-24: the constructor's move, returning the wrapper's
target slot and the caller's slot as left after construction. -/
def constructSequentialWrapper (caller : UniquePtr FSSequentialFile) :
    UniquePtr FSSequentialFile × UniquePtr FSSequentialFile :=
  (⟨caller.contents⟩, ⟨none⟩)

/-- Source lines 52-54: the constructor's move. -/
def constructRandomAccessWrapper (caller : UniquePtr FSRandomAccessFile) :
    UniquePtr FSRandomAccessFile × UniquePtr FSRandomAccessFile :=
  (⟨caller.contents⟩, ⟨none⟩)

/-- Source lines 107-108: the constructor's move. -/
def constructWritableWrapper (caller : UniquePtr FSWritableFile) :
    UniquePtr FSWritableFile × UniquePtr FSWritableFile :=
  (⟨caller.contents⟩, ⟨none⟩)

/-- Source lines 224-225: the constructor's move. -/
def constructRandomRWWrapper (caller : UniquePtr FSRandomRWFile) :
    UniquePtr FSRandomRWFile × UniquePtr FSRandomRWFile :=
  (⟨caller.contents⟩, ⟨none⟩)

/-- Source lines 269-270: the constructor's move. -/
def constructDirectoryWrapper (caller : UniquePtr FSDirectory) :
    UniquePtr FSDirectory × UniquePtr FSDirectory :=
  (⟨caller.contents⟩, ⟨none⟩)

/-! ## Concrete handles and backends used to instantiate the theorems. -/

/-- A trivial modern sequential handle: every operation succeeds. -/
def dummySeqFile : FSSequentialFile :=
  { Read := fun _ _ _ _ => (Status.OK, Slice.empty)
    Skip := fun _ => Status.OK
    use_direct_io := false
    GetRequiredBufferAlignment := 4096
    InvalidateCache := fun _ _ => Status.OK
    PositionedRead := fun _ _ _ _ _ => (Status.OK, Slice.empty) }

/-- A trivial modern random-access handle. -/
def dummyRandomFile : FSRandomAccessFile :=
  { Read := fun _ _ _ _ _ => (Status.OK, Slice.empty)
    MultiRead := fun l _ _ => (l, Status.OK)
    Prefetch := fun _ _ _ _ => Status.OK
    GetUniqueId := fun _ _ => 0
    Hint := fun _ => ()
    use_direct_io := false
    GetRequiredBufferAlignment := 4096
    InvalidateCache := fun _ _ => Status.OK }

/-- A trivial modern writable handle. -/
def dummyWritableFile : FSWritableFile :=
  { Append := fun _ _ _ => Status.OK
    AppendWithVerify := fun _ _ _ _ => Status.OK
    PositionedAppend := fun _ _ _ _ => Status.OK
    PositionedAppendWithVerify := fun _ _ _ _ _ => Status.OK
    Truncate := fun _ _ _ => Status.OK
    Close := fun _ _ => Status.OK
    Flush := fun _ _ => Status.OK
    Sync := fun _ _ => Status.OK
    Fsync := fun _ _ => Status.OK
    IsSyncThreadSafe := true
    use_direct_io := false
    GetRequiredBufferAlignment := 4096
    writeHint := 0
    GetFileSize := fun _ _ => 0
    preallocationBlockSize := 0
    lastPreallocatedBlock := 0
    GetUniqueId := fun _ _ => 0
    InvalidateCache := fun _ _ => Status.OK
    RangeSync := fun _ _ _ _ => Status.OK
    PrepareWrite := fun _ _ _ d => d
    Allocate := fun _ _ _ _ => Status.OK }

/-- A trivial modern random read/write handle. -/
def dummyRWFile : FSRandomRWFile :=
  { use_direct_io := false
    GetRequiredBufferAlignment := 4096
    Write := fun _ _ _ _ => Status.OK
    Read := fun _ _ _ _ _ => (Status.OK, Slice.empty)
    Flush := fun _ _ => Status.OK
    Sync := fun _ _ => Status.OK
    Fsync := fun _ _ => Status.OK
    Close := fun _ _ => Status.OK }

/-- A trivial modern directory handle. -/
def dummyDirectory : FSDirectory :=
  { FsyncWithDirOptions := fun _ _ _ => Status.OK
    GetUniqueId := fun _ _ => 0 }

/-- A backend on which every creation succeeds and returns the matching
trivial handle. -/
def okFileSystem : FileSystem :=
  { NewSequentialFile := fun _ _ _ => (Status.OK, some dummySeqFile)
    NewRandomAccessFile := fun _ _ _ => (Status.OK, some dummyRandomFile)
    NewWritableFile := fun _ _ _ => (Status.OK, some dummyWritableFile)
    ReopenWritableFile := fun _ _ _ => (Status.OK, some dummyWritableFile)
    ReuseWritableFile := fun _ _ _ _ => (Status.OK, some dummyWritableFile)
    NewRandomRWFile := fun _ _ _ => (Status.OK, some dummyRWFile)
    NewDirectory := fun _ _ _ => (Status.OK, some dummyDirectory) }

/-- A not-found failure status with a message, used to check byte-for-byte
propagation. -/
def notFoundStatus : Status := ⟨2, 0, "no such file"⟩

/-- A backend on which every creation fails with `notFoundStatus` and leaves
the handle slot empty. -/
def failFileSystem : FileSystem :=
  { NewSequentialFile := fun _ _ _ => (notFoundStatus, none)
    NewRandomAccessFile := fun _ _ _ => (notFoundStatus, none)
    NewWritableFile := fun _ _ _ => (notFoundStatus, none)
    ReopenWritableFile := fun _ _ _ => (notFoundStatus, none)
    ReuseWritableFile := fun _ _ _ _ => (notFoundStatus, none)
    NewRandomRWFile := fun _ _ _ => (notFoundStatus, none)
    NewDirectory := fun _ _ _ => (notFoundStatus, none) }

/-- A probe backend whose directory creation reports, through its status
code, whether the options value it received is the default-constructed
`IOOptions` (code 7) or anything else (code 8). -/
def dirOptionsProbeFileSystem : FileSystem :=
  { okFileSystem with
    NewDirectory := fun _ io_opts _ =>
      (⟨if io_opts = ({} : IOOptions) then 7 else 8, 0, "probe"⟩, none) }

/-- A legacy open-options value that differs from the default, used to show
that the file creations' modern options do depend on the legacy options. -/
def envOptionsA : EnvOptions := { bytesPerSync := 1 }

/-- A probe backend whose sequential-file creation reports, through its
status code, whether the options value it received is the translation of
`envOptionsA` (code 7) or anything else (code 8). -/
def seqOptionsProbeFileSystem : FileSystem :=
  { okFileSystem with
    NewSequentialFile := fun _ fo _ =>
      (⟨if fo = FileOptions.ofEnvOptions envOptionsA then 7 else 8, 0,
        "probe"⟩, none) }

/-- A random-access handle whose batched read stamps each element's status
code with that element's offset: the copied-back outcome then reveals which
internal element landed in which caller slot. -/
def offsetStampFile : FSRandomAccessFile :=
  { dummyRandomFile with
    MultiRead := fun l _ _ =>
      (l.map fun q => { q with status := ⟨q.offset, 0, ""⟩ }, Status.OK) }

/-- A random-access handle whose batched read fails at call level while
filling every element's result with a marker slice (and leaving the
pre-initialized element statuses untouched). -/
def callLevelFailFile : FSRandomAccessFile :=
  { dummyRandomFile with
    MultiRead := fun l _ _ =>
      (l.map fun q => { q with result := Slice.mk "Z" }, ⟨5, 0, "injected"⟩) }

/-- A writable handle on which the plain and the verified append variants
are observably different, so that delegation to the verified variant cannot
be confused with a fallback to the plain one. -/
def verifyProbeFile : FSWritableFile :=
  { dummyWritableFile with
    Append := fun _ _ _ => ⟨1, 0, "plain append"⟩
    AppendWithVerify := fun _ _ v _ => ⟨0, 0, v.checksum.data⟩
    PositionedAppend := fun _ _ _ _ => ⟨1, 0, "plain positioned"⟩
    PositionedAppendWithVerify := fun _ _ _ v _ => ⟨0, 0, v.checksum.data⟩ }

/-- A concrete batched-read input used by the witnesses. -/
def sampleReq : ReadRequest := { offset := 3, len := 4, scratch := 1 }

/-- A second concrete batched-read input with a distinct offset. -/
def sampleReq2 : ReadRequest := { offset := 9, len := 2, scratch := 2 }

/-! ## Helper lemmas about the two `MultiRead` loops. -/

/-- The copy-back loop writes one output element per input element: the
output array length is the input array length. -/
theorem copyBackReqs_length (rs : List ReadRequest) (fs : List FSReadRequest) :
    (copyBackReqs rs fs).length = rs.length := by
  induction rs generalizing fs with
  | nil => cases fs <;> simp [copyBackReqs]
  | cons r rs ih =>
    cases fs with
    | nil => simp [copyBackReqs]
    | cons f fs => simp [copyBackReqs, ih]

/-- The copy-back loop is position-wise: if position `i` holds `r` in the
caller's array and `f` in the internal array, then position `i` of the
result holds `r` updated with `f`'s result slice and status. -/
theorem copyBackReqs_get? (rs : List ReadRequest) (fs : List FSReadRequest)
    (i : Nat) (r : ReadRequest) (f : FSReadRequest)
    (hr : rs[i]? = some r) (hf : fs[i]? = some f) :
    (copyBackReqs rs fs)[i]? =
      some { r with result := f.result, status := f.status } := by
  induction rs generalizing fs i with
  | nil => simp at hr
  | cons r0 rs ih =>
    cases fs with
    | nil => simp at hf
    | cons f0 fs =>
      cases i with
      | zero =>
        simp only [List.getElem?_cons_zero, Option.some.injEq] at hr hf
        subst hr; subst hf
        simp [copyBackReqs]
      | succ i =>
        simp only [List.getElem?_cons_succ] at hr hf
        simpa [copyBackReqs] using ih fs i hr hf

/-! ## The claims. -/

/-- C1: `MultiRead` with N requests builds a parallel internal array of N
modern-shaped requests copying offset, length and destination buffer of
input element i into internal element i with status pre-initialized to
success, issues the one modern batched read, and copies internal element
i's result slice and status back into output element i: the output sequence
has length N and element i of the output corresponds to element i of the
input, and the call-level status is that one call's status. -/
theorem multiRead_translation_index_aligned
    (file : FSRandomAccessFile) (reqs : List ReadRequest) :
    (buildFsReqs reqs).length = reqs.length ∧
    (∀ (i : Nat) (r : ReadRequest), reqs[i]? = some r →
      (buildFsReqs reqs)[i]? =
        some { offset := r.offset, len := r.len, scratch := r.scratch,
               result := Slice.empty, status := Status.OK }) ∧
    (CompositeRandomAccessFileWrapper.MultiRead ⟨file⟩ reqs).1.length
      = reqs.length ∧
    (∀ (i : Nat) (r : ReadRequest) (f : FSReadRequest), reqs[i]? = some r →
      (file.MultiRead (buildFsReqs reqs) {} {}).1[i]? = some f →
      (CompositeRandomAccessFileWrapper.MultiRead ⟨file⟩ reqs).1[i]? =
        some { r with result := f.result, status := f.status }) ∧
    (CompositeRandomAccessFileWrapper.MultiRead ⟨file⟩ reqs).2 =
      (file.MultiRead (buildFsReqs reqs) {} {}).2 := by
  refine ⟨by simp [buildFsReqs], ?_, ?_, ?_, rfl⟩
  · intro i r hr
    simp [buildFsReqs, List.getElem?_map, hr, toFsReq]
  · simpa [CompositeRandomAccessFileWrapper.MultiRead] using
      copyBackReqs_length reqs (file.MultiRead (buildFsReqs reqs) {} {}).1
  · intro i r f hr hf
    simpa [CompositeRandomAccessFileWrapper.MultiRead] using
      copyBackReqs_get? reqs (file.MultiRead (buildFsReqs reqs) {} {}).1 i r f hr hf

/-- Witness for C1: two requests with distinct offsets against a backend
that stamps each internal element's status with its offset; the stamp of
the second input lands in the second output slot. -/
theorem multiRead_translation_index_aligned_witness :
    (CompositeRandomAccessFileWrapper.MultiRead ⟨offsetStampFile⟩
        [sampleReq, sampleReq2]).1[1]? =
      some { sampleReq2 with result := Slice.empty, status := ⟨9, 0, ""⟩ } ∧
    (CompositeRandomAccessFileWrapper.MultiRead ⟨offsetStampFile⟩
        [sampleReq, sampleReq2]).1.length = 2 :=
  ⟨(multiRead_translation_index_aligned offsetStampFile [sampleReq, sampleReq2]).2.2.2.1
      1 sampleReq2
      { offset := 9, len := 2, scratch := 2, result := Slice.empty,
        status := ⟨9, 0, ""⟩ } rfl rfl,
   (multiRead_translation_index_aligned offsetStampFile [sampleReq, sampleReq2]).2.2.1⟩

/-- C10: the per-element copy-back happens unconditionally, in particular
when the modern batched call reports a call-level failure: each output
element still receives the result slice and status left in the internal
array (the pre-initialized success status for untouched elements). -/
theorem multiRead_copies_back_even_on_call_failure
    (file : FSRandomAccessFile) (reqs : List ReadRequest)
    (hfail : ((file.MultiRead (buildFsReqs reqs) {} {}).2).ok = false) :
    (∀ (i : Nat) (r : ReadRequest) (f : FSReadRequest), reqs[i]? = some r →
      (file.MultiRead (buildFsReqs reqs) {} {}).1[i]? = some f →
      (CompositeRandomAccessFileWrapper.MultiRead ⟨file⟩ reqs).1[i]? =
        some { r with result := f.result, status := f.status }) ∧
    ((CompositeRandomAccessFileWrapper.MultiRead ⟨file⟩ reqs).2).ok = false := by
  constructor
  · intro i r f hr hf
    simpa [CompositeRandomAccessFileWrapper.MultiRead] using
      copyBackReqs_get? reqs (file.MultiRead (buildFsReqs reqs) {} {}).1 i r f hr hf
  · simpa [CompositeRandomAccessFileWrapper.MultiRead] using hfail

/-- Witness for C10: a backend failing at call level while writing a marker
result into every element; the caller's element still receives the marker
and the pre-initialized success status, and the call-level failure is
returned. -/
theorem multiRead_copies_back_even_on_call_failure_witness :
    (CompositeRandomAccessFileWrapper.MultiRead ⟨callLevelFailFile⟩
        [sampleReq]).1[0]? =
      some { sampleReq with result := Slice.mk "Z", status := Status.OK } ∧
    ((CompositeRandomAccessFileWrapper.MultiRead ⟨callLevelFailFile⟩
        [sampleReq]).2).ok = false :=
  ⟨(multiRead_copies_back_even_on_call_failure callLevelFailFile [sampleReq] rfl).1
      0 sampleReq
      { offset := 3, len := 4, scratch := 1, result := Slice.mk "Z",
        status := Status.OK } rfl rfl,
   (multiRead_copies_back_even_on_call_failure callLevelFailFile [sampleReq] rfl).2⟩

/-- C2: for every creation operation, when the modern backend's creation
call returns a non-ok status, the output handle slot is left empty (no
wrapper is constructed) and the backend's status value is returned to the
caller unchanged. -/
theorem creation_failure_leaves_output_empty (env : CompositeEnv)
    (f g : String) (options : EnvOptions) :
    (((env.fileSystem.NewSequentialFile f (FileOptions.ofEnvOptions options)
          {}).1).ok = false →
      CompositeEnv.NewSequentialFile env f options =
        ((env.fileSystem.NewSequentialFile f (FileOptions.ofEnvOptions options)
            {}).1, none)) ∧
    (((env.fileSystem.NewRandomAccessFile f (FileOptions.ofEnvOptions options)
          {}).1).ok = false →
      CompositeEnv.NewRandomAccessFile env f options =
        ((env.fileSystem.NewRandomAccessFile f (FileOptions.ofEnvOptions options)
            {}).1, none)) ∧
    (((env.fileSystem.NewWritableFile f (FileOptions.ofEnvOptions options)
          {}).1).ok = false →
      CompositeEnv.NewWritableFile env f options =
        ((env.fileSystem.NewWritableFile f (FileOptions.ofEnvOptions options)
            {}).1, none)) ∧
    (((env.fileSystem.ReopenWritableFile f (FileOptions.ofEnvOptions options)
          {}).1).ok = false →
      CompositeEnv.ReopenWritableFile env f options =
        ((env.fileSystem.ReopenWritableFile f (FileOptions.ofEnvOptions options)
            {}).1, none)) ∧
    (((env.fileSystem.ReuseWritableFile f g (FileOptions.ofEnvOptions options)
          {}).1).ok = false →
      CompositeEnv.ReuseWritableFile env f g options =
        ((env.fileSystem.ReuseWritableFile f g (FileOptions.ofEnvOptions options)
            {}).1, none)) ∧
    (((env.fileSystem.NewRandomRWFile f (FileOptions.ofEnvOptions options)
          {}).1).ok = false →
      CompositeEnv.NewRandomRWFile env f options =
        ((env.fileSystem.NewRandomRWFile f (FileOptions.ofEnvOptions options)
            {}).1, none)) ∧
    (((env.fileSystem.NewDirectory f {} {}).1).ok = false →
      CompositeEnv.NewDirectory env f =
        ((env.fileSystem.NewDirectory f {} {}).1, none)) := by
  refine ⟨?_, ?_, ?_, ?_, ?_, ?_, ?_⟩ <;>
    (intro h ;
     simp [CompositeEnv.NewSequentialFile, CompositeEnv.NewRandomAccessFile,
       CompositeEnv.NewWritableFile, CompositeEnv.ReopenWritableFile,
       CompositeEnv.ReuseWritableFile, CompositeEnv.NewRandomRWFile,
       CompositeEnv.NewDirectory, h])

/-- Witness for C2: on a backend whose every creation fails not-found with a
message, each composite creation returns that very status and an empty
output slot. -/
theorem creation_failure_leaves_output_empty_witness :
    CompositeEnv.NewSequentialFile ⟨failFileSystem⟩ "a" {} = (notFoundStatus, none) ∧
    CompositeEnv.NewRandomAccessFile ⟨failFileSystem⟩ "a" {} = (notFoundStatus, none) ∧
    CompositeEnv.NewWritableFile ⟨failFileSystem⟩ "a" {} = (notFoundStatus, none) ∧
    CompositeEnv.ReopenWritableFile ⟨failFileSystem⟩ "a" {} = (notFoundStatus, none) ∧
    CompositeEnv.ReuseWritableFile ⟨failFileSystem⟩ "a" "b" {} = (notFoundStatus, none) ∧
    CompositeEnv.NewRandomRWFile ⟨failFileSystem⟩ "a" {} = (notFoundStatus, none) ∧
    CompositeEnv.NewDirectory ⟨failFileSystem⟩ "a" = (notFoundStatus, none) := by
  have h := creation_failure_leaves_output_empty ⟨failFileSystem⟩ "a" "b" {}
  exact ⟨h.1 rfl, h.2.1 rfl, h.2.2.1 rfl, h.2.2.2.1 rfl, h.2.2.2.2.1 rfl,
    h.2.2.2.2.2.1 rfl, h.2.2.2.2.2.2 rfl⟩

/-- C3: for every creation operation, when the modern backend's creation
call succeeds, the returned legacy handle is the matching leaf wrapper
constructed around exactly the handle the backend returned, with the
success status propagated; and every legacy operation on a wrapper built
around a handle is the corresponding modern operation of that same handle. -/
theorem creation_success_wraps_backend_handle (env : CompositeEnv)
    (f g : String) (options : EnvOptions) :
    ((((env.fileSystem.NewSequentialFile f (FileOptions.ofEnvOptions options)
           {}).1).ok = true →
       CompositeEnv.NewSequentialFile env f options =
         ((env.fileSystem.NewSequentialFile f (FileOptions.ofEnvOptions options)
             {}).1,
          Option.map CompositeSequentialFileWrapper.mk
            (env.fileSystem.NewSequentialFile f (FileOptions.ofEnvOptions options)
              {}).2)) ∧
     (((env.fileSystem.NewRandomAccessFile f (FileOptions.ofEnvOptions options)
           {}).1).ok = true →
       CompositeEnv.NewRandomAccessFile env f options =
         ((env.fileSystem.NewRandomAccessFile f (FileOptions.ofEnvOptions options)
             {}).1,
          Option.map CompositeRandomAccessFileWrapper.mk
            (env.fileSystem.NewRandomAccessFile f (FileOptions.ofEnvOptions options)
              {}).2)) ∧
     (((env.fileSystem.NewWritableFile f (FileOptions.ofEnvOptions options)
           {}).1).ok = true →
       CompositeEnv.NewWritableFile env f options =
         ((env.fileSystem.NewWritableFile f (FileOptions.ofEnvOptions options)
             {}).1,
          Option.map CompositeWritableFileWrapper.mk
            (env.fileSystem.NewWritableFile f (FileOptions.ofEnvOptions options)
              {}).2)) ∧
     (((env.fileSystem.ReopenWritableFile f (FileOptions.ofEnvOptions options)
           {}).1).ok = true →
       CompositeEnv.ReopenWritableFile env f options =
         ((env.fileSystem.ReopenWritableFile f (FileOptions.ofEnvOptions options)
             {}).1,
          Option.map CompositeWritableFileWrapper.mk
            (env.fileSystem.ReopenWritableFile f (FileOptions.ofEnvOptions options)
              {}).2)) ∧
     (((env.fileSystem.ReuseWritableFile f g (FileOptions.ofEnvOptions options)
           {}).1).ok = true →
       CompositeEnv.ReuseWritableFile env f g options =
         ((env.fileSystem.ReuseWritableFile f g (FileOptions.ofEnvOptions options)
             {}).1,
          Option.map CompositeWritableFileWrapper.mk
            (env.fileSystem.ReuseWritableFile f g (FileOptions.ofEnvOptions options)
              {}).2)) ∧
     (((env.fileSystem.NewRandomRWFile f (FileOptions.ofEnvOptions options)
           {}).1).ok = true →
       CompositeEnv.NewRandomRWFile env f options =
         ((env.fileSystem.NewRandomRWFile f (FileOptions.ofEnvOptions options)
             {}).1,
          Option.map CompositeRandomRWFileWrapper.mk
            (env.fileSystem.NewRandomRWFile f (FileOptions.ofEnvOptions options)
              {}).2)) ∧
     (((env.fileSystem.NewDirectory f {} {}).1).ok = true →
       CompositeEnv.NewDirectory env f =
         ((env.fileSystem.NewDirectory f {} {}).1,
          Option.map CompositeDirectoryWrapper.mk
            (env.fileSystem.NewDirectory f {} {}).2))) ∧
    -- sequential wrapper delegation
    ((∀ (h : FSSequentialFile) (n s : Nat),
        CompositeSequentialFileWrapper.Read ⟨h⟩ n s = h.Read n {} s {}) ∧
     (∀ (h : FSSequentialFile) (n : Nat),
        CompositeSequentialFileWrapper.Skip ⟨h⟩ n = h.Skip n) ∧
     (∀ (h : FSSequentialFile),
        CompositeSequentialFileWrapper.use_direct_io ⟨h⟩ = h.use_direct_io) ∧
     (∀ (h : FSSequentialFile),
        CompositeSequentialFileWrapper.GetRequiredBufferAlignment ⟨h⟩ =
          h.GetRequiredBufferAlignment) ∧
     (∀ (h : FSSequentialFile) (o l : Nat),
        CompositeSequentialFileWrapper.InvalidateCache ⟨h⟩ o l =
          h.InvalidateCache o l) ∧
     (∀ (h : FSSequentialFile) (o n s : Nat),
        CompositeSequentialFileWrapper.PositionedRead ⟨h⟩ o n s =
          h.PositionedRead o n {} s {})) ∧
    -- random-access wrapper delegation
    ((∀ (h : FSRandomAccessFile) (o n s : Nat),
        CompositeRandomAccessFileWrapper.Read ⟨h⟩ o n s = h.Read o n {} s {}) ∧
     (∀ (h : FSRandomAccessFile) (reqs : List ReadRequest),
        CompositeRandomAccessFileWrapper.MultiRead ⟨h⟩ reqs =
          (copyBackReqs reqs (h.MultiRead (buildFsReqs reqs) {} {}).1,
           (h.MultiRead (buildFsReqs reqs) {} {}).2)) ∧
     (∀ (h : FSRandomAccessFile) (o n : Nat),
        CompositeRandomAccessFileWrapper.Prefetch ⟨h⟩ o n = h.Prefetch o n {} {}) ∧
     (∀ (h : FSRandomAccessFile) (id m : Nat),
        CompositeRandomAccessFileWrapper.GetUniqueId ⟨h⟩ id m = h.GetUniqueId id m) ∧
     (∀ (h : FSRandomAccessFile) (p : Nat),
        CompositeRandomAccessFileWrapper.Hint ⟨h⟩ p = h.Hint (accessPatternCast p)) ∧
     (∀ (h : FSRandomAccessFile),
        CompositeRandomAccessFileWrapper.use_direct_io ⟨h⟩ = h.use_direct_io) ∧
     (∀ (h : FSRandomAccessFile),
        CompositeRandomAccessFileWrapper.GetRequiredBufferAlignment ⟨h⟩ =
          h.GetRequiredBufferAlignment) ∧
     (∀ (h : FSRandomAccessFile) (o l : Nat),
        CompositeRandomAccessFileWrapper.InvalidateCache ⟨h⟩ o l =
          h.InvalidateCache o l)) ∧
    -- writable wrapper delegation
    ((∀ (h : FSWritableFile) (d : Slice),
        CompositeWritableFileWrapper.Append ⟨h⟩ d = h.Append d {} {}) ∧
     (∀ (h : FSWritableFile) (d : Slice) (v : DataVerificationInfo),
        CompositeWritableFileWrapper.AppendWithVerify ⟨h⟩ d v =
          h.AppendWithVerify d {} v {}) ∧
     (∀ (h : FSWritableFile) (d : Slice) (o : Nat),
        CompositeWritableFileWrapper.PositionedAppend ⟨h⟩ d o =
          h.PositionedAppend d o {} {}) ∧
     (∀ (h : FSWritableFile) (d : Slice) (o : Nat) (v : DataVerificationInfo),
        CompositeWritableFileWrapper.PositionedAppendWithVerify ⟨h⟩ d o v =
          h.PositionedAppendWithVerify d o {} v {}) ∧
     (∀ (h : FSWritableFile) (n : Nat),
        CompositeWritableFileWrapper.Truncate ⟨h⟩ n = h.Truncate n {} {}) ∧
     (∀ (h : FSWritableFile),
        CompositeWritableFileWrapper.Close ⟨h⟩ = h.Close {} {}) ∧
     (∀ (h : FSWritableFile),
        CompositeWritableFileWrapper.Flush ⟨h⟩ = h.Flush {} {}) ∧
     (∀ (h : FSWritableFile),
        CompositeWritableFileWrapper.Sync ⟨h⟩ = h.Sync {} {}) ∧
     (∀ (h : FSWritableFile),
        CompositeWritableFileWrapper.Fsync ⟨h⟩ = h.Fsync {} {}) ∧
     (∀ (h : FSWritableFile),
        CompositeWritableFileWrapper.IsSyncThreadSafe ⟨h⟩ = h.IsSyncThreadSafe) ∧
     (∀ (h : FSWritableFile),
        CompositeWritableFileWrapper.use_direct_io ⟨h⟩ = h.use_direct_io) ∧
     (∀ (h : FSWritableFile),
        CompositeWritableFileWrapper.GetRequiredBufferAlignment ⟨h⟩ =
          h.GetRequiredBufferAlignment) ∧
     (∀ (h : FSWritableFile) (hint : Nat),
        CompositeWritableFileWrapper.SetWriteLifeTimeHint ⟨h⟩ hint =
          ⟨h.SetWriteLifeTimeHint hint⟩) ∧
     (∀ (h : FSWritableFile),
        CompositeWritableFileWrapper.GetWriteLifeTimeHint ⟨h⟩ =
          h.GetWriteLifeTimeHint) ∧
     (∀ (h : FSWritableFile),
        CompositeWritableFileWrapper.GetFileSize ⟨h⟩ = h.GetFileSize {} {}) ∧
     (∀ (h : FSWritableFile) (n : Nat),
        CompositeWritableFileWrapper.SetPreallocationBlockSize ⟨h⟩ n =
          ⟨h.SetPreallocationBlockSize n⟩) ∧
     (∀ (h : FSWritableFile),
        CompositeWritableFileWrapper.GetPreallocationStatus ⟨h⟩ =
          h.GetPreallocationStatus) ∧
     (∀ (h : FSWritableFile) (id m : Nat),
        CompositeWritableFileWrapper.GetUniqueId ⟨h⟩ id m = h.GetUniqueId id m) ∧
     (∀ (h : FSWritableFile) (o l : Nat),
        CompositeWritableFileWrapper.InvalidateCache ⟨h⟩ o l =
          h.InvalidateCache o l) ∧
     (∀ (h : FSWritableFile) (o n : Nat),
        CompositeWritableFileWrapper.RangeSync ⟨h⟩ o n = h.RangeSync o n {} {}) ∧
     (∀ (h : FSWritableFile) (o l : Nat),
        CompositeWritableFileWrapper.PrepareWrite ⟨h⟩ o l =
          h.PrepareWrite o l {} {}) ∧
     (∀ (h : FSWritableFile) (o l : Nat),
        CompositeWritableFileWrapper.Allocate ⟨h⟩ o l = h.Allocate o l {} {})) ∧
    -- random read/write wrapper delegation
    ((∀ (h : FSRandomRWFile),
        CompositeRandomRWFileWrapper.use_direct_io ⟨h⟩ = h.use_direct_io) ∧
     (∀ (h : FSRandomRWFile),
        CompositeRandomRWFileWrapper.GetRequiredBufferAlignment ⟨h⟩ =
          h.GetRequiredBufferAlignment) ∧
     (∀ (h : FSRandomRWFile) (o : Nat) (d : Slice),
        CompositeRandomRWFileWrapper.Write ⟨h⟩ o d = h.Write o d {} {}) ∧
     (∀ (h : FSRandomRWFile) (o n s : Nat),
        CompositeRandomRWFileWrapper.Read ⟨h⟩ o n s = h.Read o n {} s {}) ∧
     (∀ (h : FSRandomRWFile),
        CompositeRandomRWFileWrapper.Flush ⟨h⟩ = h.Flush {} {}) ∧
     (∀ (h : FSRandomRWFile),
        CompositeRandomRWFileWrapper.Sync ⟨h⟩ = h.Sync {} {}) ∧
     (∀ (h : FSRandomRWFile),
        CompositeRandomRWFileWrapper.Fsync ⟨h⟩ = h.Fsync {} {}) ∧
     (∀ (h : FSRandomRWFile),
        CompositeRandomRWFileWrapper.Close ⟨h⟩ = h.Close {} {})) ∧
    -- directory wrapper delegation
    ((∀ (h : FSDirectory),
        CompositeDirectoryWrapper.Fsync ⟨h⟩ = h.FsyncWithDirOptions {} {} {}) ∧
     (∀ (h : FSDirectory) (id m : Nat),
        CompositeDirectoryWrapper.GetUniqueId ⟨h⟩ id m = h.GetUniqueId id m)) := by
  refine ⟨⟨?_, ?_, ?_, ?_, ?_, ?_, ?_⟩, ?_, ?_, ?_, ?_, ?_⟩
  · intro h
    simp [CompositeEnv.NewSequentialFile, h]
  · intro h
    simp [CompositeEnv.NewRandomAccessFile, h]
  · intro h
    simp [CompositeEnv.NewWritableFile, h]
  · intro h
    simp [CompositeEnv.ReopenWritableFile, h]
  · intro h
    simp [CompositeEnv.ReuseWritableFile, h]
  · intro h
    simp [CompositeEnv.NewRandomRWFile, h]
  · intro h
    simp [CompositeEnv.NewDirectory, h]
  · exact ⟨fun h n s => rfl, fun h n => rfl, fun h => rfl, fun h => rfl,
      fun h o l => rfl, fun h o n s => rfl⟩
  · exact ⟨fun h o n s => rfl, fun h reqs => rfl, fun h o n => rfl,
      fun h id m => rfl, fun h p => rfl, fun h => rfl, fun h => rfl,
      fun h o l => rfl⟩
  · exact ⟨fun h d => rfl, fun h d v => rfl, fun h d o => rfl,
      fun h d o v => rfl, fun h n => rfl, fun h => rfl, fun h => rfl,
      fun h => rfl, fun h => rfl, fun h => rfl, fun h => rfl, fun h => rfl,
      fun h hint => rfl, fun h => rfl, fun h => rfl, fun h n => rfl,
      fun h => rfl, fun h id m => rfl, fun h o l => rfl, fun h o n => rfl,
      fun h o l => rfl, fun h o l => rfl⟩
  · exact ⟨fun h => rfl, fun h => rfl, fun h o d => rfl, fun h o n s => rfl,
      fun h => rfl, fun h => rfl, fun h => rfl, fun h => rfl⟩
  · exact ⟨fun h => rfl, fun h id m => rfl⟩

/-- Witness for C3: on a backend whose every creation succeeds with a
concrete handle, each composite creation returns the ok status and the
matching wrapper around that very handle. -/
theorem creation_success_wraps_backend_handle_witness :
    CompositeEnv.NewSequentialFile ⟨okFileSystem⟩ "a" {} =
      (Status.OK, some ⟨dummySeqFile⟩) ∧
    CompositeEnv.NewRandomAccessFile ⟨okFileSystem⟩ "a" {} =
      (Status.OK, some ⟨dummyRandomFile⟩) ∧
    CompositeEnv.NewWritableFile ⟨okFileSystem⟩ "a" {} =
      (Status.OK, some ⟨dummyWritableFile⟩) ∧
    CompositeEnv.ReopenWritableFile ⟨okFileSystem⟩ "a" {} =
      (Status.OK, some ⟨dummyWritableFile⟩) ∧
    CompositeEnv.ReuseWritableFile ⟨okFileSystem⟩ "a" "b" {} =
      (Status.OK, some ⟨dummyWritableFile⟩) ∧
    CompositeEnv.NewRandomRWFile ⟨okFileSystem⟩ "a" {} =
      (Status.OK, some ⟨dummyRWFile⟩) ∧
    CompositeEnv.NewDirectory ⟨okFileSystem⟩ "a" =
      (Status.OK, some ⟨dummyDirectory⟩) := by
  have h := (creation_success_wraps_backend_handle ⟨okFileSystem⟩ "a" "b" {}).1
  exact ⟨h.1 rfl, h.2.1 rfl, h.2.2.1 rfl, h.2.2.2.1 rfl, h.2.2.2.2.1 rfl,
    h.2.2.2.2.2.1 rfl, h.2.2.2.2.2.2 rfl⟩

/-- C4: the verified append and positioned-append overloads forward the
caller's verification payload intact to the modern verified variants, for
every handle behavior; and on a handle whose plain and verified variants
are observably different, the wrapper's result is the verified variant's
result (carrying the very sentinel checksum), not the plain variant's: no
silent fallback. -/
theorem verified_append_forwards_payload (file : FSWritableFile)
    (data : Slice) (offset : Nat) (verification_info : DataVerificationInfo) :
    CompositeWritableFileWrapper.AppendWithVerify ⟨file⟩ data verification_info =
      file.AppendWithVerify data {} verification_info {} ∧
    CompositeWritableFileWrapper.PositionedAppendWithVerify ⟨file⟩ data offset
        verification_info =
      file.PositionedAppendWithVerify data offset {} verification_info {} ∧
    CompositeWritableFileWrapper.AppendWithVerify ⟨verifyProbeFile⟩
        (Slice.mk "abc") ⟨Slice.mk "sentinel"⟩ = ⟨0, 0, "sentinel"⟩ ∧
    CompositeWritableFileWrapper.AppendWithVerify ⟨verifyProbeFile⟩
        (Slice.mk "abc") ⟨Slice.mk "sentinel"⟩ ≠
      verifyProbeFile.Append (Slice.mk "abc") {} {} ∧
    CompositeWritableFileWrapper.PositionedAppendWithVerify ⟨verifyProbeFile⟩
        (Slice.mk "abc") 7 ⟨Slice.mk "sentinel"⟩ = ⟨0, 0, "sentinel"⟩ ∧
    CompositeWritableFileWrapper.PositionedAppendWithVerify ⟨verifyProbeFile⟩
        (Slice.mk "abc") 7 ⟨Slice.mk "sentinel"⟩ ≠
      verifyProbeFile.PositionedAppend (Slice.mk "abc") 7 {} {} := by
  refine ⟨rfl, rfl, rfl, ?_, rfl, ?_⟩ <;> decide

/-- Witness for C4: a concrete verified append against the probe handle is
the modern verified call with the same payload. -/
theorem verified_append_forwards_payload_witness :
    CompositeWritableFileWrapper.AppendWithVerify ⟨verifyProbeFile⟩
        (Slice.mk "xyz") ⟨Slice.mk "c1"⟩ =
      verifyProbeFile.AppendWithVerify (Slice.mk "xyz") {} ⟨Slice.mk "c1"⟩ {} :=
  (verified_append_forwards_payload verifyProbeFile (Slice.mk "xyz") 0
    ⟨Slice.mk "c1"⟩).1

/-- C5: the directory wrapper's `Fsync` always issues the modern
directory-fsync with the default-constructed `DirFsyncOptions` (no special
flags), whatever the handle's behavior. -/
theorem directory_fsync_requests_default_options (d : FSDirectory) :
    CompositeDirectoryWrapper.Fsync ⟨d⟩ =
      d.FsyncWithDirOptions {} {} ({} : DirFsyncOptions) ∧
    ({} : DirFsyncOptions).reason = 0 ∧
    ({} : DirFsyncOptions).renamedNewName = "" :=
  ⟨rfl, rfl, rfl⟩

/-- Witness for C5: the concrete directory handle. -/
theorem directory_fsync_requests_default_options_witness :
    CompositeDirectoryWrapper.Fsync ⟨dummyDirectory⟩ =
      dummyDirectory.FsyncWithDirOptions {} {} ({} : DirFsyncOptions) :=
  (directory_fsync_requests_default_options dummyDirectory).1

/-- C6 counterexample: the claim states that every creation operation,
including the directory creation, constructs its modern options value from
the legacy open options. The legacy `NewDirectory` carries no open-options
parameter at all (compare the type of `CompositeEnv.NewDirectory` with the
other creations), and the source passes a default-constructed `IOOptions`.
The probe backend reports code 7 exactly when the options it receives are
the default `IOOptions`: the composite directory creation always triggers
code 7, for any path, so the options value is the fixed default, not a
value constructed from legacy open options. By contrast the sequential-file
probe shows a file creation's modern options value varying with the legacy
options, which is what the claim asserts of the directory creation too. -/
theorem newDirectory_passes_fixed_default_io_options :
    (CompositeEnv.NewDirectory ⟨dirOptionsProbeFileSystem⟩ "d").1 =
      ⟨7, 0, "probe"⟩ ∧
    (CompositeEnv.NewDirectory ⟨dirOptionsProbeFileSystem⟩ "another-path").1 =
      ⟨7, 0, "probe"⟩ ∧
    (CompositeEnv.NewDirectory ⟨dirOptionsProbeFileSystem⟩ "d").2 = none ∧
    (CompositeEnv.NewSequentialFile ⟨seqOptionsProbeFileSystem⟩ "d"
        envOptionsA).1 = ⟨7, 0, "probe"⟩ ∧
    (CompositeEnv.NewSequentialFile ⟨seqOptionsProbeFileSystem⟩ "d" {}).1 =
      ⟨8, 0, "probe"⟩ := by
  refine ⟨by decide, by decide, rfl, by decide, by decide⟩

/-- C6 as amended: every file creation passes `FileOptions` constructed
from the legacy open options together with a fresh empty debug context to
the matching modern creation call; the directory creation, whose legacy
entry point carries no open options, passes a default-constructed
`IOOptions` together with a fresh empty debug context; in both cases the
wrapper envelope is applied to the backend's answer. -/
theorem creation_builds_modern_options_and_empty_dbg (env : CompositeEnv)
    (f g : String) (options : EnvOptions) :
    CompositeEnv.NewSequentialFile env f options =
      (let call := env.fileSystem.NewSequentialFile f
         (FileOptions.ofEnvOptions options) ({} : IODebugContext)
       if call.1.ok then
         (call.1, Option.map CompositeSequentialFileWrapper.mk call.2)
       else (call.1, none)) ∧
    CompositeEnv.NewRandomAccessFile env f options =
      (let call := env.fileSystem.NewRandomAccessFile f
         (FileOptions.ofEnvOptions options) ({} : IODebugContext)
       if call.1.ok then
         (call.1, Option.map CompositeRandomAccessFileWrapper.mk call.2)
       else (call.1, none)) ∧
    CompositeEnv.NewWritableFile env f options =
      (let call := env.fileSystem.NewWritableFile f
         (FileOptions.ofEnvOptions options) ({} : IODebugContext)
       if call.1.ok then
         (call.1, Option.map CompositeWritableFileWrapper.mk call.2)
       else (call.1, none)) ∧
    CompositeEnv.ReopenWritableFile env f options =
      (let call := env.fileSystem.ReopenWritableFile f
         (FileOptions.ofEnvOptions options) ({} : IODebugContext)
       if call.1.ok then
         (call.1, Option.map CompositeWritableFileWrapper.mk call.2)
       else (call.1, none)) ∧
    CompositeEnv.ReuseWritableFile env f g options =
      (let call := env.fileSystem.ReuseWritableFile f g
         (FileOptions.ofEnvOptions options) ({} : IODebugContext)
       if call.1.ok then
         (call.1, Option.map CompositeWritableFileWrapper.mk call.2)
       else (call.1, none)) ∧
    CompositeEnv.NewRandomRWFile env f options =
      (let call := env.fileSystem.NewRandomRWFile f
         (FileOptions.ofEnvOptions options) ({} : IODebugContext)
       if call.1.ok then
         (call.1, Option.map CompositeRandomRWFileWrapper.mk call.2)
       else (call.1, none)) ∧
    CompositeEnv.NewDirectory env f =
      (let call := env.fileSystem.NewDirectory f ({} : IOOptions)
         ({} : IODebugContext)
       if call.1.ok then
         (call.1, Option.map CompositeDirectoryWrapper.mk call.2)
       else (call.1, none)) ∧
    ({} : IODebugContext).requestId = "" ∧ ({} : IODebugContext).msg = "" :=
  ⟨rfl, rfl, rfl, rfl, rfl, rfl, rfl, rfl, rfl⟩

/-- Witness for C6 (amended): one creation evaluated on the concrete ok
backend agrees with the stated translation shape. -/
theorem creation_builds_modern_options_and_empty_dbg_witness :
    CompositeEnv.NewDirectory ⟨okFileSystem⟩ "a" =
      (let call := okFileSystem.NewDirectory "a" ({} : IOOptions)
         ({} : IODebugContext)
       if call.1.ok then
         (call.1, Option.map CompositeDirectoryWrapper.mk call.2)
       else (call.1, none)) :=
  (creation_builds_modern_options_and_empty_dbg ⟨okFileSystem⟩ "a" "b"
    {}).2.2.2.2.2.2.1

/-- C7: every delegated operation whose modern counterpart is shaped with an
options and debug-context parameter receives a freshly default-constructed
pair for that call; the default options value carries no deadline and no
priority, and the wrappers persist no options state (each call's equation
exhibits the same default-constructed values, whatever calls preceded). -/
theorem per_call_options_are_fresh_defaults
    (sf : FSSequentialFile) (rf : FSRandomAccessFile) (wf : FSWritableFile)
    (rw : FSRandomRWFile) (dir : FSDirectory) (n s off len nbytes : Nat)
    (data : Slice) (verification_info : DataVerificationInfo)
    (reqs : List ReadRequest) :
    ({} : IOOptions).timeout = 0 ∧
    ({} : IOOptions).prio = 0 ∧
    ({} : IOOptions).rateLimiterPriority = 0 ∧
    CompositeSequentialFileWrapper.Read ⟨sf⟩ n s = sf.Read n {} s {} ∧
    CompositeSequentialFileWrapper.PositionedRead ⟨sf⟩ off n s =
      sf.PositionedRead off n {} s {} ∧
    CompositeRandomAccessFileWrapper.Read ⟨rf⟩ off n s = rf.Read off n {} s {} ∧
    CompositeRandomAccessFileWrapper.Prefetch ⟨rf⟩ off n =
      rf.Prefetch off n {} {} ∧
    (CompositeRandomAccessFileWrapper.MultiRead ⟨rf⟩ reqs).2 =
      (rf.MultiRead (buildFsReqs reqs) {} {}).2 ∧
    CompositeWritableFileWrapper.Append ⟨wf⟩ data = wf.Append data {} {} ∧
    CompositeWritableFileWrapper.AppendWithVerify ⟨wf⟩ data verification_info =
      wf.AppendWithVerify data {} verification_info {} ∧
    CompositeWritableFileWrapper.PositionedAppend ⟨wf⟩ data off =
      wf.PositionedAppend data off {} {} ∧
    CompositeWritableFileWrapper.PositionedAppendWithVerify ⟨wf⟩ data off
        verification_info =
      wf.PositionedAppendWithVerify data off {} verification_info {} ∧
    CompositeWritableFileWrapper.Truncate ⟨wf⟩ n = wf.Truncate n {} {} ∧
    CompositeWritableFileWrapper.Close ⟨wf⟩ = wf.Close {} {} ∧
    CompositeWritableFileWrapper.Flush ⟨wf⟩ = wf.Flush {} {} ∧
    CompositeWritableFileWrapper.Sync ⟨wf⟩ = wf.Sync {} {} ∧
    CompositeWritableFileWrapper.Fsync ⟨wf⟩ = wf.Fsync {} {} ∧
    CompositeWritableFileWrapper.GetFileSize ⟨wf⟩ = wf.GetFileSize {} {} ∧
    CompositeWritableFileWrapper.RangeSync ⟨wf⟩ off nbytes =
      wf.RangeSync off nbytes {} {} ∧
    CompositeWritableFileWrapper.PrepareWrite ⟨wf⟩ off len =
      wf.PrepareWrite off len {} {} ∧
    CompositeWritableFileWrapper.Allocate ⟨wf⟩ off len =
      wf.Allocate off len {} {} ∧
    CompositeRandomRWFileWrapper.Write ⟨rw⟩ off data = rw.Write off data {} {} ∧
    CompositeRandomRWFileWrapper.Read ⟨rw⟩ off n s = rw.Read off n {} s {} ∧
    CompositeRandomRWFileWrapper.Flush ⟨rw⟩ = rw.Flush {} {} ∧
    CompositeRandomRWFileWrapper.Sync ⟨rw⟩ = rw.Sync {} {} ∧
    CompositeRandomRWFileWrapper.Fsync ⟨rw⟩ = rw.Fsync {} {} ∧
    CompositeRandomRWFileWrapper.Close ⟨rw⟩ = rw.Close {} {} ∧
    CompositeDirectoryWrapper.Fsync ⟨dir⟩ = dir.FsyncWithDirOptions {} {} {} :=
  ⟨rfl, rfl, rfl, rfl, rfl, rfl, rfl, rfl, rfl, rfl, rfl, rfl, rfl, rfl,
   rfl, rfl, rfl, rfl, rfl, rfl, rfl, rfl, rfl, rfl, rfl, rfl, rfl, rfl⟩

/-- Witness for C7: a concrete append reaches the concrete modern handle
with the default-constructed options and debug context. -/
theorem per_call_options_are_fresh_defaults_witness :
    CompositeWritableFileWrapper.Append ⟨dummyWritableFile⟩ (Slice.mk "abc") =
      dummyWritableFile.Append (Slice.mk "abc") {} {} :=
  (per_call_options_are_fresh_defaults dummySeqFile dummyRandomFile
    dummyWritableFile dummyRWFile dummyDirectory 0 0 0 0 0 (Slice.mk "abc")
    ⟨Slice.empty⟩ []).2.2.2.2.2.2.2.2.1

/-- C8: the pass-through queries and setters (direct-I/O flag, required
buffer alignment, write-lifetime-hint get and set) yield exactly the value
of the same operation on the wrapped modern handle; setting the hint stores
it on the handle, reading it back yields the stored value, and repeating a
set with no intervening mutation leaves the same state. -/
theorem passthrough_queries_match_handle
    (sf : FSSequentialFile) (rf : FSRandomAccessFile) (wf : FSWritableFile)
    (rw : FSRandomRWFile) (hint : Nat) :
    CompositeSequentialFileWrapper.use_direct_io ⟨sf⟩ = sf.use_direct_io ∧
    CompositeSequentialFileWrapper.GetRequiredBufferAlignment ⟨sf⟩ =
      sf.GetRequiredBufferAlignment ∧
    CompositeRandomAccessFileWrapper.use_direct_io ⟨rf⟩ = rf.use_direct_io ∧
    CompositeRandomAccessFileWrapper.GetRequiredBufferAlignment ⟨rf⟩ =
      rf.GetRequiredBufferAlignment ∧
    CompositeWritableFileWrapper.use_direct_io ⟨wf⟩ = wf.use_direct_io ∧
    CompositeWritableFileWrapper.GetRequiredBufferAlignment ⟨wf⟩ =
      wf.GetRequiredBufferAlignment ∧
    CompositeRandomRWFileWrapper.use_direct_io ⟨rw⟩ = rw.use_direct_io ∧
    CompositeRandomRWFileWrapper.GetRequiredBufferAlignment ⟨rw⟩ =
      rw.GetRequiredBufferAlignment ∧
    CompositeWritableFileWrapper.GetWriteLifeTimeHint ⟨wf⟩ =
      wf.GetWriteLifeTimeHint ∧
    (CompositeWritableFileWrapper.SetWriteLifeTimeHint ⟨wf⟩ hint).target =
      wf.SetWriteLifeTimeHint hint ∧
    CompositeWritableFileWrapper.GetWriteLifeTimeHint
      (CompositeWritableFileWrapper.SetWriteLifeTimeHint ⟨wf⟩ hint) = hint ∧
    CompositeWritableFileWrapper.SetWriteLifeTimeHint
      (CompositeWritableFileWrapper.SetWriteLifeTimeHint ⟨wf⟩ hint) hint =
      CompositeWritableFileWrapper.SetWriteLifeTimeHint ⟨wf⟩ hint :=
  ⟨rfl, rfl, rfl, rfl, rfl, rfl, rfl, rfl, rfl, rfl, rfl, rfl⟩

/-- Witness for C8: set then get on the concrete writable handle. -/
theorem passthrough_queries_match_handle_witness :
    CompositeWritableFileWrapper.GetWriteLifeTimeHint
      (CompositeWritableFileWrapper.SetWriteLifeTimeHint
        ⟨dummyWritableFile⟩ 3) = 3 :=
  (passthrough_queries_match_handle dummySeqFile dummyRandomFile
    dummyWritableFile dummyRWFile 3).2.2.2.2.2.2.2.2.2.2.1

/-- C9: constructing a wrapper moves the modern handle out of the caller's
owning slot: the wrapper's target slot ends up holding exactly the handle
the caller's slot held, the caller's slot is left empty, and release is
only by wrapper destruction or by the delegated `Close` (shown for the
handle types that expose `Close`). -/
theorem wrapper_construction_transfers_ownership
    (a : FSSequentialFile) (b : FSRandomAccessFile) (c : FSWritableFile)
    (d : FSRandomRWFile) (e : FSDirectory)
    (p : UniquePtr FSSequentialFile) (q : UniquePtr FSRandomAccessFile)
    (u : UniquePtr FSWritableFile) (v : UniquePtr FSRandomRWFile)
    (t : UniquePtr FSDirectory)
    (hp : p.contents = some a) (hq : q.contents = some b)
    (hu : u.contents = some c) (hv : v.contents = some d)
    (ht : t.contents = some e) :
    constructSequentialWrapper p = (⟨some a⟩, ⟨none⟩) ∧
    constructRandomAccessWrapper q = (⟨some b⟩, ⟨none⟩) ∧
    constructWritableWrapper u = (⟨some c⟩, ⟨none⟩) ∧
    constructRandomRWWrapper v = (⟨some d⟩, ⟨none⟩) ∧
    constructDirectoryWrapper t = (⟨some e⟩, ⟨none⟩) ∧
    CompositeWritableFileWrapper.Close ⟨c⟩ = c.Close {} {} ∧
    CompositeRandomRWFileWrapper.Close ⟨d⟩ = d.Close {} {} := by
  refine ⟨?_, ?_, ?_, ?_, ?_, rfl, rfl⟩ <;>
    simp [constructSequentialWrapper, constructRandomAccessWrapper,
      constructWritableWrapper, constructRandomRWWrapper,
      constructDirectoryWrapper, hp, hq, hu, hv, ht]

/-- Witness for C9: concrete handles moved out of concrete caller slots. -/
theorem wrapper_construction_transfers_ownership_witness :
    constructSequentialWrapper ⟨some dummySeqFile⟩ =
      (⟨some dummySeqFile⟩, ⟨none⟩) ∧
    constructRandomAccessWrapper ⟨some dummyRandomFile⟩ =
      (⟨some dummyRandomFile⟩, ⟨none⟩) ∧
    constructWritableWrapper ⟨some dummyWritableFile⟩ =
      (⟨some dummyWritableFile⟩, ⟨none⟩) ∧
    constructRandomRWWrapper ⟨some dummyRWFile⟩ =
      (⟨some dummyRWFile⟩, ⟨none⟩) ∧
    constructDirectoryWrapper ⟨some dummyDirectory⟩ =
      (⟨some dummyDirectory⟩, ⟨none⟩) := by
  have h := wrapper_construction_transfers_ownership dummySeqFile
    dummyRandomFile dummyWritableFile dummyRWFile dummyDirectory
    ⟨some dummySeqFile⟩ ⟨some dummyRandomFile⟩ ⟨some dummyWritableFile⟩
    ⟨some dummyRWFile⟩ ⟨some dummyDirectory⟩ rfl rfl rfl rfl rfl
  exact ⟨h.1, h.2.1, h.2.2.1, h.2.2.2.1, h.2.2.2.2.1⟩
